import Mathlib

/-!
Verification of the BLUE-SKYTRON giveaway/referral service.

The repository holds three near-identical Express + Sequelize variants:
* `src/app.js`     - session variant (passport session, serializeUser stores the user id);
* `src/server.js`  - token variant (stateless JWT in an HTTP-only cookie);
* `src/unnamed/part_000` - simplified session variant (serializeUser stores the
  whole user record, and the join route performs no referrerName validation).

The embedding below models the Sequelize datastore as explicit record lists and
each route handler as a pure state transformer, translated line by line from the
source. Sequelize semantics used: `allowNull: false` rejects only `null` and
`undefined` (an empty string passes); `Model.create` appends a row; an
instance `save()` writes the instance fields back to the row with its primary
key. JavaScript truthiness on a destructured string field: `undefined` and the
empty string are falsy, every other string (including whitespace-only) is
truthy.
-/

namespace BlueSkytron

/-- Row of the `User` table (`sequelize.define('User', ...)` in all variants). -/
structure User where
  id : Nat
  username : String
  passwordHash : String
deriving Repr, DecidableEq

/-- Row of the `Giveaway` table: room name, channel link, unique code, running
referral count, plus the `ownerId` foreign key added by the association
`User.hasMany(Giveaway, foreignKey ownerId)`. -/
structure Giveaway where
  id : Nat
  ownerId : Nat
  roomName : String
  channelLink : String
  code : String
  referralCount : Nat
deriving Repr, DecidableEq

/-- Row of the `Referral` table, with the `giveawayId` foreign key added by
`Giveaway.hasMany(Referral, foreignKey giveawayId)`. The timestamp column is
irrelevant to every claim and omitted. -/
structure Referral where
  id : Nat
  giveawayId : Nat
  referrerName : String
deriving Repr, DecidableEq

/-- The persistent store: the three tables, plus the next auto-increment
primary key for referrals. -/
structure DB where
  users : List User
  giveaways : List Giveaway
  referrals : List Referral
  nextReferralId : Nat
deriving Repr, DecidableEq

/-- JavaScript truthiness of a possibly-absent string request field:
`undefined` (modelled `none`) and the empty string are falsy. -/
def jsFalsy : Option String → Bool
  | none => true
  | some s => s.isEmpty

/-- Giveaway.findOne with a `code` filter (`where: { code: req.params.code }`). -/
def findByCode (db : DB) (code : String) : Option Giveaway :=
  db.giveaways.find? (fun g => g.code == code)

/-- Number of Referral rows whose `giveawayId` references the given giveaway. -/
def countReferrals (db : DB) (gid : Nat) : Nat :=
  db.referrals.countP (fun r => r.giveawayId == gid)

/-- Referral.create with a `giveawayId` and a `referrerName`: appends one row
with a fresh primary key. -/
def insertReferral (db : DB) (gid : Nat) (name : String) : DB :=
  { db with
      referrals := db.referrals ++ [⟨db.nextReferralId, gid, name⟩],
      nextReferralId := db.nextReferralId + 1 }

/-- Instance `save()` on a fetched giveaway object: writes the object fields
back to the row carrying its primary key. -/
def saveGiveaway (db : DB) (g : Giveaway) : DB :=
  { db with giveaways := db.giveaways.map (fun x => if x.id == g.id then g else x) }

/-- The two storage writes shared verbatim by every join handler:
`await Referral.create(...)`, then `giveaway.referralCount++` followed by
`await giveaway.save()` on the object fetched earlier. -/
def joinWrites (db : DB) (g : Giveaway) (name : String) : DB :=
  saveGiveaway (insertReferral db g.id name) { g with referralCount := g.referralCount + 1 }

/-- Outcome of a POST join request as seen by the caller. `error` stands for an
unhandled storage rejection (no HTTP response is produced). -/
inductive JoinOutcome
  | notFound
  | reprompt (code : String)
  | redirect (target : String)
  | error
deriving Repr, DecidableEq

/-- Whether a join outcome is the successful redirect to the channel link. -/
def JoinOutcome.isSuccess : JoinOutcome → Bool
  | .redirect _ => true
  | _ => false

/-- POST /giveaway/:code/join of `src/app.js` (lines 203-214) and
`src/server.js` (lines 198-208), which are identical: resolve the code, 404 if
absent, re-prompt when `!referrerName`, otherwise create the referral,
increment the fetched counter, save, and redirect to the channel link. -/
def submitJoin (db : DB) (code : String) (referrerName : Option String) : DB × JoinOutcome :=
  match findByCode db code with
  | none => (db, .notFound)
  | some g =>
    if jsFalsy referrerName then (db, .reprompt code)
    else (joinWrites db g (referrerName.getD ""), .redirect g.channelLink)

/-- POST /giveaway/:code/join of `src/unnamed/part_000` (lines 91-98): no
referrerName validation at all. An absent field reaches `Referral.create` as
`undefined`, which the `allowNull: false` column rejects; the `await` then
throws out of the handler with no response and no writes. An empty string
passes the null check and is recorded like any other name. -/
def submitJoinSimple (db : DB) (code : String) (referrerName : Option String) : DB × JoinOutcome :=
  match findByCode db code with
  | none => (db, .notFound)
  | some g =>
    match referrerName with
    | none => (db, .error)
    | some name => (joinWrites db g name, .redirect g.channelLink)

/-- Which of the three source variants handles a request. The session and token
variants share one join handler text; the simple variant differs. -/
inductive Variant
  | session
  | token
  | simple
deriving Repr, DecidableEq

/-- One join request: the variant serving it, the code in the URL, and the
posted referrerName field. -/
structure JoinOp where
  variant : Variant
  code : String
  name : Option String
deriving Repr, DecidableEq

/-- Dispatch a join request to the handler of its variant. -/
def applyJoin (db : DB) (op : JoinOp) : DB × JoinOutcome :=
  match op.variant with
  | .session => submitJoin db op.code op.name
  | .token => submitJoin db op.code op.name
  | .simple => submitJoinSimple db op.code op.name

/-- Run a sequence of join requests one after the other (no interleaving). -/
def runJoins (db : DB) (ops : List JoinOp) : DB :=
  ops.foldl (fun d op => (applyJoin d op).1) db

/-! Helper lemmas about the storage operations. -/

theorem countReferrals_insertReferral (db : DB) (gid : Nat) (name : String) (x : Nat) :
    countReferrals (insertReferral db gid name) x =
      countReferrals db x + (if gid = x then 1 else 0) := by
  by_cases h : gid = x <;>
    simp [countReferrals, insertReferral, List.countP_append, List.countP_cons, h]

theorem countReferrals_saveGiveaway (db : DB) (g : Giveaway) (x : Nat) :
    countReferrals (saveGiveaway db g) x = countReferrals db x := rfl

theorem joinWrites_referrals_length (db : DB) (g : Giveaway) (name : String) :
    (joinWrites db g name).referrals.length = db.referrals.length + 1 := by
  simp [joinWrites, saveGiveaway, insertReferral]

theorem joinWrites_count_target (db : DB) (g : Giveaway) (name : String) :
    countReferrals (joinWrites db g name) g.id = countReferrals db g.id + 1 := by
  simp [joinWrites, countReferrals_saveGiveaway, countReferrals_insertReferral]

theorem joinWrites_count_other (db : DB) (g : Giveaway) (name : String) (x : Nat)
    (h : g.id ≠ x) :
    countReferrals (joinWrites db g name) x = countReferrals db x := by
  simp [joinWrites, countReferrals_saveGiveaway, countReferrals_insertReferral, h]

theorem joinWrites_row_target (db : DB) (g : Giveaway) (name : String) :
    ∀ x ∈ (joinWrites db g name).giveaways, x.id = g.id →
      x.referralCount = g.referralCount + 1 := by
  intro x hx hid
  simp only [joinWrites, saveGiveaway, insertReferral, List.mem_map] at hx
  obtain ⟨y, _, rfl⟩ := hx
  by_cases h : y.id = g.id
  · simp [h]
  · simp [h] at hid

theorem joinWrites_preserves (db : DB) (g : Giveaway) (name : String)
    (hmem : g ∈ db.giveaways)
    (hinv : ∀ x ∈ db.giveaways, x.referralCount = countReferrals db x.id) :
    ∀ x ∈ (joinWrites db g name).giveaways,
      x.referralCount = countReferrals (joinWrites db g name) x.id := by
  intro x hx
  simp only [joinWrites, saveGiveaway, insertReferral, List.mem_map] at hx
  obtain ⟨y, hy, rfl⟩ := hx
  rw [joinWrites] at *
  by_cases h : y.id = g.id
  · simp only [h, beq_self_eq_true, if_pos]
    rw [countReferrals_saveGiveaway, countReferrals_insertReferral]
    simp [hinv g hmem]
  · simp only [beq_iff_eq, h, if_neg, not_false_eq_true]
    rw [countReferrals_saveGiveaway, countReferrals_insertReferral]
    have : g.id ≠ y.id := fun hc => h hc.symm
    simp [this, hinv y hy]

theorem findByCode_mem (db : DB) (code : String) (g : Giveaway)
    (h : findByCode db code = some g) : g ∈ db.giveaways :=
  List.mem_of_find?_eq_some h

theorem submitJoin_preserves (db : DB) (code : String) (name : Option String)
    (hinv : ∀ x ∈ db.giveaways, x.referralCount = countReferrals db x.id) :
    ∀ x ∈ (submitJoin db code name).1.giveaways,
      x.referralCount = countReferrals (submitJoin db code name).1 x.id := by
  unfold submitJoin
  cases hfind : findByCode db code with
  | none => simpa using hinv
  | some g =>
    by_cases hf : jsFalsy name
    · simpa [hf] using hinv
    · simpa [hf] using joinWrites_preserves db g _ (findByCode_mem db code g hfind) hinv

theorem submitJoinSimple_preserves (db : DB) (code : String) (name : Option String)
    (hinv : ∀ x ∈ db.giveaways, x.referralCount = countReferrals db x.id) :
    ∀ x ∈ (submitJoinSimple db code name).1.giveaways,
      x.referralCount = countReferrals (submitJoinSimple db code name).1 x.id := by
  unfold submitJoinSimple
  cases hfind : findByCode db code with
  | none => simpa using hinv
  | some g =>
    cases name with
    | none => simpa using hinv
    | some s => simpa using joinWrites_preserves db g s (findByCode_mem db code g hfind) hinv

theorem applyJoin_preserves (db : DB) (op : JoinOp)
    (hinv : ∀ x ∈ db.giveaways, x.referralCount = countReferrals db x.id) :
    ∀ x ∈ (applyJoin db op).1.giveaways,
      x.referralCount = countReferrals (applyJoin db op).1 x.id := by
  cases hv : op.variant <;> simp only [applyJoin, hv]
  · exact submitJoin_preserves db op.code op.name hinv
  · exact submitJoin_preserves db op.code op.name hinv
  · exact submitJoinSimple_preserves db op.code op.name hinv

theorem runJoins_preserves (db : DB) (ops : List JoinOp)
    (hinv : ∀ x ∈ db.giveaways, x.referralCount = countReferrals db x.id) :
    ∀ x ∈ (runJoins db ops).giveaways,
      x.referralCount = countReferrals (runJoins db ops) x.id := by
  induction ops generalizing db with
  | nil => simpa [runJoins] using hinv
  | cons op rest ih =>
    have h1 := applyJoin_preserves db op hinv
    simpa [runJoins] using ih (applyJoin db op).1 h1

theorem applyJoin_success_eq (d : DB) (op : JoinOp) (g : Giveaway)
    (hfind : findByCode d op.code = some g)
    (hs : ((applyJoin d op).2).isSuccess = true) :
    ∃ nm, (applyJoin d op).1 = joinWrites d g nm := by
  cases hv : op.variant <;>
    simp only [applyJoin, hv, submitJoin, submitJoinSimple, hfind] at hs ⊢
  · by_cases hf : jsFalsy op.name
    · simp [hf, JoinOutcome.isSuccess] at hs
    · exact ⟨op.name.getD "", by simp [hf]⟩
  · by_cases hf : jsFalsy op.name
    · simp [hf, JoinOutcome.isSuccess] at hs
    · exact ⟨op.name.getD "", by simp [hf]⟩
  · cases hn : op.name with
    | none => simp [hn, JoinOutcome.isSuccess] at hs
    | some s => exact ⟨s, by simp [hn]⟩

/-- Concrete store used to witness the sequential counter invariant: one
giveaway with code `c`, referral count 0 and no referrals yet. -/
def dbC1 : DB := ⟨[], [⟨1, 1, "room", "link", "c", 0⟩], [], 1⟩

/-- Concrete join sequence used by the invariant witness: one join served by
the session variant, one by the simplified variant. -/
def opsC1 : List JoinOp := [⟨.session, "c", some "bob"⟩, ⟨.simple, "c", some "ann"⟩]

/-- C1: starting from any store in which every giveaway counter equals its
Referral row count, any sequence of sequential joins (served by any of the
three variants) preserves that equality; moreover every successful join
appends exactly one Referral row, raises the Referral count of the target
giveaway by exactly 1, and leaves the target giveaway row with counter
exactly one above the fetched value. -/
theorem referralCount_matches_ledger (db : DB) (ops : List JoinOp)
    (hinv : ∀ g ∈ db.giveaways, g.referralCount = countReferrals db g.id) :
    (∀ g ∈ (runJoins db ops).giveaways,
        g.referralCount = countReferrals (runJoins db ops) g.id) ∧
    (∀ (d : DB) (op : JoinOp) (g : Giveaway),
        findByCode d op.code = some g → ((applyJoin d op).2).isSuccess = true →
          (applyJoin d op).1.referrals.length = d.referrals.length + 1 ∧
          countReferrals (applyJoin d op).1 g.id = countReferrals d g.id + 1 ∧
          ∀ x ∈ (applyJoin d op).1.giveaways, x.id = g.id →
            x.referralCount = g.referralCount + 1) := by
  refine ⟨runJoins_preserves db ops hinv, ?_⟩
  intro d op g hfind hs
  obtain ⟨nm, heq⟩ := applyJoin_success_eq d op g hfind hs
  rw [heq]
  exact ⟨joinWrites_referrals_length d g nm, joinWrites_count_target d g nm,
    joinWrites_row_target d g nm⟩

/-- Witness for C1 at the concrete store and join sequence above. -/
theorem referralCount_matches_ledger_witness :
    (∀ g ∈ dbC1.giveaways, g.referralCount = countReferrals dbC1 g.id) ∧
    ((∀ g ∈ (runJoins dbC1 opsC1).giveaways,
        g.referralCount = countReferrals (runJoins dbC1 opsC1) g.id) ∧
    (∀ (d : DB) (op : JoinOp) (g : Giveaway),
        findByCode d op.code = some g → ((applyJoin d op).2).isSuccess = true →
          (applyJoin d op).1.referrals.length = d.referrals.length + 1 ∧
          countReferrals (applyJoin d op).1 g.id = countReferrals d g.id + 1 ∧
          ∀ x ∈ (applyJoin d op).1.giveaways, x.id = g.id →
            x.referralCount = g.referralCount + 1)) :=
  ⟨by decide, referralCount_matches_ledger dbC1 opsC1 (by decide)⟩

/-! Crash model for the join writes. The handler runs `Referral.create` and
`giveaway.save()` as two separate awaited storage calls with no surrounding
transaction, so the state between them is durable if the process stops there. -/

/-- Store state when the join handler of app.js / server.js stops right after
the first await (`Referral.create`) and before the second (`giveaway.save()`). -/
def submitJoinCrashAfterCreate (db : DB) (code : String) (referrerName : Option String) : DB :=
  match findByCode db code with
  | none => db
  | some g =>
    if jsFalsy referrerName then db
    else insertReferral db g.id (referrerName.getD "")

/-- Concrete store for the crash scenario: one giveaway, counter 0. -/
def dbC2 : DB := ⟨[], [⟨1, 1, "room", "link", "c", 0⟩], [], 1⟩

/-- C2 (refuting the atomicity claim at a concrete input): on a store with one
giveaway with counter 0, a join for code `c` with name `bob` interrupted
between the two writes leaves exactly one Referral row referencing the
giveaway while its counter remains 0 — a Referral with no counter increment.
The last conjunct checks that the interrupted state is the genuine
intermediate of the handler: completing the remaining `save()` from it yields
exactly the state the uninterrupted handler produces. -/
theorem join_writes_not_atomic :
    countReferrals (submitJoinCrashAfterCreate dbC2 "c" (some "bob")) 1 = 1 ∧
    (submitJoinCrashAfterCreate dbC2 "c" (some "bob")).giveaways =
      [⟨1, 1, "room", "link", "c", 0⟩] ∧
    (submitJoin dbC2 "c" (some "bob")).1 =
      saveGiveaway (submitJoinCrashAfterCreate dbC2 "c" (some "bob"))
        ⟨1, 1, "room", "link", "c", 1⟩ := by decide

/-! Interleaving model for concurrent joins. Each in-flight request executes
three atomic storage steps - the `findOne` fetch, the `Referral.create`, and
the `save()` of the locally incremented counter - and the awaits let steps of
different requests interleave freely. -/

/-- Global store plus the local state of each in-flight request: the giveaway
object request `i` fetched, once its `findOne` has completed. -/
structure ConcState where
  db : DB
  locals : List (Option Giveaway)
deriving Repr, DecidableEq

/-- One atomic storage step of one in-flight join request. -/
inductive JoinAct
  | fetchStep (i : Nat)
  | createStep (i : Nat)
  | saveStep (i : Nat)
deriving Repr, DecidableEq

/-- Effect of a single step on the global store and the local states, read off
from the handler body: the fetch stores `findOne` result locally, the create
appends a Referral for the locally fetched giveaway, and the save writes the
locally fetched object back with its counter incremented by one. -/
def concStep (code : String) (name : String) (s : ConcState) : JoinAct → ConcState
  | .fetchStep i => { s with locals := s.locals.set i (findByCode s.db code) }
  | .createStep i =>
    match s.locals[i]? with
    | some (some g) => { s with db := insertReferral s.db g.id name }
    | _ => s
  | .saveStep i =>
    match s.locals[i]? with
    | some (some g) =>
      { s with db := saveGiveaway s.db { g with referralCount := g.referralCount + 1 } }
    | _ => s

/-- Run an interleaving of steps of concurrent join requests. -/
def runConc (code name : String) (s : ConcState) (acts : List JoinAct) : ConcState :=
  acts.foldl (concStep code name) s

/-- The classic lost-update interleaving: all `n` requests complete their
fetch before any of them creates or saves; then each request finishes its two
writes in order. Every request executes its full handler body. -/
def lostUpdateSchedule (n : Nat) : List JoinAct :=
  (List.range n).map JoinAct.fetchStep ++
    (List.range n).flatMap (fun i => [JoinAct.createStep i, JoinAct.saveStep i])

/-- Concrete store for the concurrency scenario: one giveaway, counter 0. -/
def dbC4 : DB := ⟨[], [⟨1, 1, "room", "link", "c", 0⟩], [], 1⟩

/-- Final state after 50 concurrent joins of code `c` interleaved as above. -/
def finalC4 : ConcState :=
  runConc "c" "bob" ⟨dbC4, List.replicate 50 none⟩ (lostUpdateSchedule 50)

set_option maxRecDepth 40000 in
/-- C4 (refuting the concurrent-counter claim at a concrete interleaving):
with 50 concurrent joins against one code, every request fetches the giveaway
successfully (first conjunct: each local holds the fetched object, so each
request runs to completion and answers with the redirect), all 50 Referral
rows are persisted, yet the final counter is 1, not 50 — the read-increment-
write pattern loses 49 updates. -/
theorem concurrent_joins_lose_updates :
    finalC4.locals = List.replicate 50 (some ⟨1, 1, "room", "link", "c", 0⟩) ∧
    finalC4.db.referrals.length = 50 ∧
    countReferrals finalC4.db 1 = 50 ∧
    finalC4.db.giveaways = [⟨1, 1, "room", "link", "c", 1⟩] := by decide

/-! Referrer-name validation (claim C5). -/

/-- Concrete store for the validation scenarios: one giveaway, counter 0. -/
def dbC5 : DB := ⟨[], [⟨1, 1, "room", "link", "c", 0⟩], [], 1⟩

/-- C5 counterexample: a whitespace-only referrerName is truthy in JavaScript,
so the session and token variants record it as a normal referral (Referral row
appended, counter raised to 1, redirect issued), and the simplified variant
records even the empty name — contradicting the claim that empty or blank
names are never recorded in any variant. -/
theorem blank_name_recorded :
    (submitJoin dbC5 "c" (some " ")).2 = .redirect "link" ∧
    (submitJoin dbC5 "c" (some " ")).1.referrals = [⟨1, 1, " "⟩] ∧
    (submitJoin dbC5 "c" (some " ")).1.giveaways = [⟨1, 1, "room", "link", "c", 1⟩] ∧
    (submitJoinSimple dbC5 "c" (some "")).1.referrals = [⟨1, 1, ""⟩] ∧
    (submitJoinSimple dbC5 "c" (some "")).2 = .redirect "link" := by decide

/-- C5 amended: in the session and token variants, a join whose referrerName
is absent or the empty string changes no state and re-prompts (when the code
resolves); whitespace-only names pass the check. The simplified variant has no
emptiness validation: an absent name aborts on the storage null constraint
with no state change and no response, and an empty name is recorded like any
other. -/
theorem empty_name_rejected (db : DB) (code : String) (name : Option String)
    (hf : jsFalsy name = true) :
    (submitJoin db code name).1 = db ∧
    ((findByCode db code).isSome → (submitJoin db code name).2 = .reprompt code) ∧
    (submitJoinSimple db code none).1 = db ∧
    ((findByCode db code).isSome → (submitJoinSimple db code none).2 = .error) := by
  unfold submitJoin submitJoinSimple
  cases hfind : findByCode db code <;> simp [hf]

/-- Witness for the amended C5 at a concrete store and the empty name. -/
theorem empty_name_rejected_witness :
    jsFalsy (some "") = true ∧
    ((submitJoin dbC5 "c" (some "")).1 = dbC5 ∧
    ((findByCode dbC5 "c").isSome → (submitJoin dbC5 "c" (some "")).2 = .reprompt "c") ∧
    (submitJoinSimple dbC5 "c" none).1 = dbC5 ∧
    ((findByCode dbC5 "c").isSome → (submitJoinSimple dbC5 "c" none).2 = .error)) :=
  ⟨by decide, empty_name_rejected dbC5 "c" (some "") (by decide)⟩

/-! Duplicate joins (claim C8). -/

theorem find?_code_saveGiveaway (l : List Giveaway) (code : String) (g h' : Giveaway)
    (hfind : l.find? (fun x => x.code == code) = some g)
    (hid : h'.id = g.id) (hcode : h'.code = g.code) :
    (l.map (fun x => if x.id == h'.id then h' else x)).find?
      (fun x => x.code == code) = some h' := by
  induction l with
  | nil => simp at hfind
  | cons a t ih =>
    by_cases hp : (a.code == code) = true
    · rw [List.find?_cons_of_pos (p := fun x : Giveaway => x.code == code) t hp] at hfind
      obtain rfl : a = g := by injection hfind
      have hid2 : (a.id == h'.id) = true := by simp [hid]
      have hph : ((fun x : Giveaway => x.code == code) h') = true := by
        show (h'.code == code) = true
        rw [hcode]
        exact hp
      simp only [List.map_cons]
      rw [if_pos hid2]
      exact List.find?_cons_of_pos (p := fun x : Giveaway => x.code == code) _ hph
    · rw [List.find?_cons_of_neg (p := fun x : Giveaway => x.code == code) t hp] at hfind
      by_cases hi : (a.id == h'.id) = true
      · have hpg := List.find?_some (p := fun x : Giveaway => x.code == code) hfind
        have hph : ((fun x : Giveaway => x.code == code) h') = true := by
          show (h'.code == code) = true
          rw [hcode]
          exact hpg
        simp only [List.map_cons]
        rw [if_pos hi]
        exact List.find?_cons_of_pos (p := fun x : Giveaway => x.code == code) _ hph
      · simp only [List.map_cons]
        rw [if_neg hi, List.find?_cons_of_neg (p := fun x : Giveaway => x.code == code) _ hp]
        exact ih hfind

/-- Resolving the code after the join writes yields the same giveaway with its
counter one higher (its id, code and channelLink are untouched). -/
theorem findByCode_joinWrites (db : DB) (code : String) (g : Giveaway) (name : String)
    (hfind : findByCode db code = some g) :
    findByCode (joinWrites db g name) code =
      some { g with referralCount := g.referralCount + 1 } := by
  unfold findByCode at hfind ⊢
  unfold joinWrites saveGiveaway insertReferral
  exact find?_code_saveGiveaway db.giveaways code g _ hfind rfl rfl

/-- C8: two join submissions with the same name against the same code succeed
independently: both redirect to the channelLink of the giveaway, each appends
its own Referral row, and each raises the counter by one, for a total of two. -/
theorem duplicate_joins_both_counted (db : DB) (code name : String) (g : Giveaway)
    (hfind : findByCode db code = some g) (hname : name ≠ "") :
    (submitJoin db code (some name)).2 = .redirect g.channelLink ∧
    (submitJoin (submitJoin db code (some name)).1 code (some name)).2 =
      .redirect g.channelLink ∧
    countReferrals (submitJoin db code (some name)).1 g.id =
      countReferrals db g.id + 1 ∧
    countReferrals (submitJoin (submitJoin db code (some name)).1 code (some name)).1 g.id =
      countReferrals db g.id + 2 ∧
    (submitJoin db code (some name)).1.referrals.length = db.referrals.length + 1 ∧
    (submitJoin (submitJoin db code (some name)).1 code (some name)).1.referrals.length =
      db.referrals.length + 2 ∧
    findByCode (submitJoin (submitJoin db code (some name)).1 code (some name)).1 code =
      some { g with referralCount := g.referralCount + 2 } := by
  have hf : jsFalsy (some name) = false := by
    have hne : ¬ name.isEmpty = true := fun h => hname ((String.isEmpty_iff name).mp h)
    simp [jsFalsy, hne]
  have h1 : submitJoin db code (some name) =
      (joinWrites db g name, .redirect g.channelLink) := by
    simp [submitJoin, hfind, hf]
  have hfind1 : findByCode (joinWrites db g name) code =
      some { g with referralCount := g.referralCount + 1 } :=
    findByCode_joinWrites db code g name hfind
  have h2 : submitJoin (joinWrites db g name) code (some name) =
      (joinWrites (joinWrites db g name) { g with referralCount := g.referralCount + 1 } name,
        .redirect g.channelLink) := by
    simp [submitJoin, hfind1, hf]
  have hfind2 := findByCode_joinWrites (joinWrites db g name) code
      { g with referralCount := g.referralCount + 1 } name hfind1
  rw [h1]
  refine ⟨rfl, ?_, ?_, ?_, ?_, ?_, ?_⟩
  · rw [h2]
  · exact joinWrites_count_target db g name
  · rw [h2]
    have := joinWrites_count_target (joinWrites db g name)
      { g with referralCount := g.referralCount + 1 } name
    simpa [joinWrites_count_target db g name] using this
  · exact joinWrites_referrals_length db g name
  · rw [h2]
    simp [joinWrites_referrals_length, joinWrites_referrals_length db g name]
  · rw [h2]
    exact hfind2

/-- Concrete store used by the duplicate-join witness. -/
def dbC8 : DB := ⟨[], [⟨1, 1, "room", "link", "c", 0⟩], [], 1⟩

/-- Witness for C8 with two joins named bob against code c. -/
theorem duplicate_joins_both_counted_witness :
    findByCode dbC8 "c" = some ⟨1, 1, "room", "link", "c", 0⟩ ∧
    ((submitJoin dbC8 "c" (some "bob")).2 = .redirect "link" ∧
    (submitJoin (submitJoin dbC8 "c" (some "bob")).1 "c" (some "bob")).2 = .redirect "link" ∧
    countReferrals (submitJoin dbC8 "c" (some "bob")).1 1 = countReferrals dbC8 1 + 1 ∧
    countReferrals (submitJoin (submitJoin dbC8 "c" (some "bob")).1 "c" (some "bob")).1 1 =
      countReferrals dbC8 1 + 2 ∧
    (submitJoin dbC8 "c" (some "bob")).1.referrals.length = dbC8.referrals.length + 1 ∧
    (submitJoin (submitJoin dbC8 "c" (some "bob")).1 "c" (some "bob")).1.referrals.length =
      dbC8.referrals.length + 2 ∧
    findByCode (submitJoin (submitJoin dbC8 "c" (some "bob")).1 "c" (some "bob")).1 "c" =
      some ⟨1, 1, "room", "link", "c", 2⟩) :=
  ⟨by decide,
    duplicate_joins_both_counted dbC8 "c" "bob" ⟨1, 1, "room", "link", "c", 0⟩
      (by decide) (by decide)⟩

/-! Giveaway creation and the owner dashboard (claims C3 and C9). -/

/-- Body of a POST /create-giveaway request. The handler destructures only
roomName and channelLink; an ownerId field a client might post is never read. -/
structure CreateBody where
  roomName : Option String
  channelLink : Option String
  ownerId : Option Nat
deriving Repr, DecidableEq

/-- Outcome of POST /create-giveaway: redirect to the dashboard on success, or
back to the creation form when `Giveaway.create` rejects. -/
inductive CreateOutcome
  | redirectDashboard
  | redirectForm
deriving Repr, DecidableEq

/-- POST /create-giveaway of app.js (187-195) and server.js (182-190): create
a Giveaway from the two destructured body fields with `ownerId: req.user.id`;
a create rejection is caught and answered with a redirect back to the form.
The `allowNull: false` columns reject an absent (null) field, while an empty
string passes the null check. `gid` stands for the fresh primary key and
`freshCode` for the UUIDv4 the code column generates. -/
def createGiveaway (db : DB) (userId : Nat) (gid : Nat) (freshCode : String)
    (body : CreateBody) : DB × CreateOutcome :=
  match body.roomName, body.channelLink with
  | some rn, some cl =>
    ({ db with giveaways := db.giveaways ++ [⟨gid, userId, rn, cl, freshCode, 0⟩] },
      .redirectDashboard)
  | _, _ => (db, .redirectForm)

/-- GET /dashboard of app.js (175-181) / server.js (170-176) / part_000
(74-77): the giveaways whose ownerId equals the resolved identity id, each
paired with its referrals (the `include` of the referrals association). -/
def dashboardData (db : DB) (userId : Nat) : List (Giveaway × List Referral) :=
  (db.giveaways.filter (fun g => g.ownerId == userId)).map
    (fun g => (g, db.referrals.filter (fun r => r.giveawayId == g.id)))

/-- C3: the dashboard returns exactly the giveaways whose ownerId equals the
resolved identity id, paired with their referrals, and creation always binds
the new ownerId to the resolved identity id — any row added by createGiveaway
carries ownerId = userId, whatever ownerId the client posted in the body. -/
theorem dashboard_and_create_bind_owner (db : DB) (userId : Nat) :
    (∀ g rs, (g, rs) ∈ dashboardData db userId ↔
      (g ∈ db.giveaways ∧ g.ownerId = userId ∧
        rs = db.referrals.filter (fun r => r.giveawayId == g.id))) ∧
    (∀ (gid : Nat) (freshCode : String) (body : CreateBody) (g : Giveaway),
      g ∈ (createGiveaway db userId gid freshCode body).1.giveaways →
        g ∉ db.giveaways → g.ownerId = userId) := by
  constructor
  · intro g rs
    simp only [dashboardData, List.mem_map, List.mem_filter, Prod.mk.injEq, beq_iff_eq]
    constructor
    · rintro ⟨g1, ⟨hmem, hown⟩, rfl, rfl⟩
      exact ⟨hmem, hown, rfl⟩
    · rintro ⟨hmem, hown, rfl⟩
      exact ⟨g, ⟨hmem, hown⟩, rfl, rfl⟩
  · intro gid freshCode body g hg hnot
    cases hrn : body.roomName with
    | none =>
      simp only [createGiveaway, hrn] at hg
      exact absurd hg hnot
    | some rn =>
      cases hcl : body.channelLink with
      | none =>
        simp only [createGiveaway, hrn, hcl] at hg
        exact absurd hg hnot
      | some cl =>
        simp only [createGiveaway, hrn, hcl, List.mem_append,
          List.mem_singleton] at hg
        rcases hg with h | rfl
        · exact absurd h hnot
        · rfl

/-- Concrete store with giveaways owned by users 7 and 8. -/
def dbC3 : DB := ⟨[], [⟨1, 7, "r1", "l1", "c1", 0⟩, ⟨2, 8, "r2", "l2", "c2", 0⟩], [], 1⟩

/-- Witness for C3: user 7 sees exactly the giveaway they own, and a creation
posting ownerId 99 in the body still binds the new row to user 7. -/
theorem dashboard_and_create_bind_owner_witness :
    ((⟨1, 7, "r1", "l1", "c1", 0⟩ : Giveaway), ([] : List Referral)) ∈ dashboardData dbC3 7 ∧
    (⟨3, 7, "r3", "l3", "c3", 0⟩ : Giveaway).ownerId = 7 :=
  ⟨((dashboard_and_create_bind_owner dbC3 7).1 ⟨1, 7, "r1", "l1", "c1", 0⟩ []).mpr
      ⟨by decide, rfl, rfl⟩,
    (dashboard_and_create_bind_owner dbC3 7).2 3 "c3" ⟨some "r3", some "l3", some 99⟩
      ⟨3, 7, "r3", "l3", "c3", 0⟩ (by decide) (by decide)⟩

/-- Outcome of POST /create-giveaway in the simplified variant: part_000
(lines 80-83) has no try/catch, so a create rejection escapes the async
handler uncaught and no HTTP response is produced. -/
inductive CreateOutcomeSimple
  | redirectDashboard
  | noResponse
deriving Repr, DecidableEq

/-- POST /create-giveaway of part_000 (80-83): the same `Giveaway.create` with
`ownerId: req.user.id`, but with no try/catch around it. When roomName or
channelLink is absent, the `allowNull: false` column rejects, the await throws
out of the handler, and nothing is written and nothing is answered; an empty
string passes the null check and is persisted. -/
def createGiveawaySimple (db : DB) (userId : Nat) (gid : Nat) (freshCode : String)
    (body : CreateBody) : DB × CreateOutcomeSimple :=
  match body.roomName, body.channelLink with
  | some rn, some cl =>
    ({ db with giveaways := db.giveaways ++ [⟨gid, userId, rn, cl, freshCode, 0⟩] },
      .redirectDashboard)
  | _, _ => (db, .noResponse)

/-- Empty store for the creation-validation scenarios. -/
def dbC9 : DB := ⟨[], [], [], 1⟩

/-- C9 counterexample: a creation request whose roomName or channelLink is the
empty string is not rejected in any variant — the giveaway is persisted with
the empty field and the caller is redirected to the dashboard, because
`allowNull: false` rejects only null and undefined, not empty strings. -/
theorem empty_roomName_persisted :
    (createGiveaway dbC9 5 1 "c" ⟨some "", some "link", none⟩).2 = .redirectDashboard ∧
    (createGiveaway dbC9 5 1 "c" ⟨some "", some "link", none⟩).1.giveaways =
      [⟨1, 5, "", "link", "c", 0⟩] ∧
    (createGiveaway dbC9 5 1 "c" ⟨some "link", some "", none⟩).2 = .redirectDashboard ∧
    (createGiveawaySimple dbC9 5 1 "c" ⟨some "", some "link", none⟩).2 =
      .redirectDashboard ∧
    (createGiveawaySimple dbC9 5 1 "c" ⟨some "", some "link", none⟩).1.giveaways =
      [⟨1, 5, "", "link", "c", 0⟩] := by
  decide

/-- C9 amended: exactly when roomName or channelLink is absent (null), the
app.js and server.js variants catch the create rejection and redirect back to
the form with no Giveaway persisted, while the part_000 variant lets the
rejection escape uncaught — no Giveaway persisted and no response produced.
An empty string passes the null check in every variant and the giveaway is
persisted (the last conjunct: the two handler models write the same store). -/
theorem create_rejects_only_null (db : DB) (userId gid : Nat) (freshCode : String)
    (body : CreateBody) :
    ((createGiveaway db userId gid freshCode body).2 = .redirectForm ↔
      (body.roomName = none ∨ body.channelLink = none)) ∧
    ((createGiveaway db userId gid freshCode body).2 = .redirectForm →
      (createGiveaway db userId gid freshCode body).1 = db) ∧
    ((createGiveawaySimple db userId gid freshCode body).2 = .noResponse ↔
      (body.roomName = none ∨ body.channelLink = none)) ∧
    ((createGiveawaySimple db userId gid freshCode body).2 = .noResponse →
      (createGiveawaySimple db userId gid freshCode body).1 = db) ∧
    (createGiveawaySimple db userId gid freshCode body).1 =
      (createGiveaway db userId gid freshCode body).1 := by
  cases hrn : body.roomName <;> cases hcl : body.channelLink <;>
    simp [createGiveaway, createGiveawaySimple, hrn, hcl]

/-- Witness for the amended C9 at a body with a null roomName. -/
theorem create_rejects_only_null_witness :
    (((createGiveaway dbC9 5 1 "c" ⟨none, some "l", none⟩).2 = .redirectForm ↔
      ((⟨none, some "l", none⟩ : CreateBody).roomName = none ∨
        (⟨none, some "l", none⟩ : CreateBody).channelLink = none)) ∧
    ((createGiveaway dbC9 5 1 "c" ⟨none, some "l", none⟩).2 = .redirectForm →
      (createGiveaway dbC9 5 1 "c" ⟨none, some "l", none⟩).1 = dbC9) ∧
    (((createGiveawaySimple dbC9 5 1 "c" ⟨none, some "l", none⟩).2 = .noResponse ↔
      ((⟨none, some "l", none⟩ : CreateBody).roomName = none ∨
        (⟨none, some "l", none⟩ : CreateBody).channelLink = none))) ∧
    ((createGiveawaySimple dbC9 5 1 "c" ⟨none, some "l", none⟩).2 = .noResponse →
      (createGiveawaySimple dbC9 5 1 "c" ⟨none, some "l", none⟩).1 = dbC9) ∧
    (createGiveawaySimple dbC9 5 1 "c" ⟨none, some "l", none⟩).1 =
      (createGiveaway dbC9 5 1 "c" ⟨none, some "l", none⟩).1) :=
  create_rejects_only_null dbC9 5 1 "c" ⟨none, some "l", none⟩

/-! Credential verification and identity issuance (claims C6 and C7). -/

/-- Result of the passport LocalStrategy verify callback shared by all three
variants: the two failure points carry distinct internal messages. -/
inductive StrategyResult
  | failure (message : String)
  | success (user : User)
deriving Repr, DecidableEq

/-- LocalStrategy of app.js (96-108), server.js (89-101) and part_000 (44-51):
exact username lookup, then bcrypt comparison of the plaintext against the
stored digest. The bcrypt comparison is abstracted as a boolean function of
plaintext and digest. -/
def localStrategy (compare : String → String → Bool) (users : List User)
    (username password : String) : StrategyResult :=
  match users.find? (fun u => u.username == username) with
  | none => .failure "Incorrect username."
  | some user =>
    if compare password user.passwordHash then .success user
    else .failure "Incorrect password."

/-- Claims carried by the token issued at login: id and username, plus the
issue time and the expiry the signing step adds. -/
structure JwtPayload where
  id : Nat
  username : String
  iat : Nat
  exp : Nat
deriving Repr, DecidableEq

/-- Modelled from the jsonwebtoken interface used by server.js: a signed token
is its decoded payload together with a signature tying it to the signing
secret. -/
structure JwtToken where
  payload : JwtPayload
  sig : String
deriving Repr, DecidableEq

/-- jwt.sign call of server.js line 162: payload `{id, username}` signed with
the server secret and `expiresIn: 1h`, i.e. expiry 3600 seconds after issue. -/
def signJwt (secret : String) (uid : Nat) (uname : String) (now : Nat) : JwtToken :=
  ⟨⟨uid, uname, now, now + 3600⟩, secret⟩

/-- Modelled from the jsonwebtoken interface: jwt.verify returns the decoded
payload iff the signature matches the secret and the clock has not reached the
expiry (jsonwebtoken raises TokenExpiredError once now is at or past exp). -/
def verifyJwt (secret : String) (now : Nat) (t : JwtToken) : Option JwtPayload :=
  if t.sig = secret ∧ now < t.payload.exp then some t.payload else none

/-- Outcome of the identity resolver on an owner-only request. -/
inductive ResolveOutcome
  | redirectLogin
  | proceed (user : JwtPayload)
deriving Repr, DecidableEq

/-- authenticateJWT middleware of server.js (106-117): read the jwt cookie,
redirect to /login when absent or when verification fails, otherwise proceed
with the decoded claims as req.user. -/
def authenticateJWT (secret : String) (now : Nat) (cookie : Option JwtToken) :
    ResolveOutcome :=
  match cookie with
  | none => .redirectLogin
  | some t =>
    match verifyJwt secret now t with
    | none => .redirectLogin
    | some decoded => .proceed decoded

/-- External result of POST /login in the session variants (app.js 161-164 and
part_000 line 72): the redirect, plus the session binding established on
success. No failure message reaches the response: no flash is configured, so
`failureRedirect` discards the strategy message. -/
structure SessionLoginResult where
  redirectTarget : String
  sessionUserId : Option Nat
deriving Repr, DecidableEq

/-- passport.authenticate with successRedirect /dashboard and failureRedirect
/login: on success the session stores the serialized user id; on failure no
session login happens. -/
def loginSession (compare : String → String → Bool) (users : List User)
    (username password : String) : SessionLoginResult :=
  match localStrategy compare users username password with
  | .failure _ => ⟨"/login", none⟩
  | .success u => ⟨"/dashboard", some u.id⟩

/-- External result of POST /login in the token variant (server.js 157-167):
the redirect, plus the jwt cookie set on success. The custom callback ignores
the `info` argument carrying the failure message. -/
structure TokenLoginResult where
  redirectTarget : String
  jwtCookie : Option JwtToken
deriving Repr, DecidableEq

/-- Custom authenticate callback of server.js: redirect to /login with no
cookie when the strategy fails, otherwise sign the token and set the cookie. -/
def loginToken (compare : String → String → Bool) (users : List User)
    (secret : String) (now : Nat) (username password : String) : TokenLoginResult :=
  match localStrategy compare users username password with
  | .failure _ => ⟨"/login", none⟩
  | .success u => ⟨"/dashboard", some (signJwt secret u.id u.username now)⟩

/-- C6: a login attempt whose username matches no user and one whose username
exists but whose password fails verification produce identical external
outcomes in both the session and the token variants, and neither issues any
identity proof (no session binding, no token cookie). -/
theorem login_failures_indistinguishable (compare : String → String → Bool)
    (users : List User) (secret : String) (now : Nat) (u1 p1 u2 p2 : String)
    (h1 : users.find? (fun u => u.username == u1) = none)
    (h2 : ∃ user, users.find? (fun u => u.username == u2) = some user ∧
      compare p2 user.passwordHash = false) :
    loginSession compare users u1 p1 = loginSession compare users u2 p2 ∧
    (loginSession compare users u1 p1).sessionUserId = none ∧
    (loginSession compare users u2 p2).sessionUserId = none ∧
    loginToken compare users secret now u1 p1 = loginToken compare users secret now u2 p2 ∧
    (loginToken compare users secret now u1 p1).jwtCookie = none ∧
    (loginToken compare users secret now u2 p2).jwtCookie = none := by
  obtain ⟨user, hu, hc⟩ := h2
  simp [loginSession, loginToken, localStrategy, h1, hu, hc]

/-- Credential store with one user for the login witness. -/
def usersC6 : List User := [⟨1, "alice", "H"⟩]

/-- Witness for C6: unknown user bob versus alice with a wrong password, with
string equality standing in for the bcrypt comparison. -/
theorem login_failures_indistinguishable_witness :
    usersC6.find? (fun u => u.username == "bob") = none ∧
    (loginSession (fun p d => p == d) usersC6 "bob" "x" =
        loginSession (fun p d => p == d) usersC6 "alice" "wrong" ∧
      (loginSession (fun p d => p == d) usersC6 "bob" "x").sessionUserId = none ∧
      (loginSession (fun p d => p == d) usersC6 "alice" "wrong").sessionUserId = none ∧
      loginToken (fun p d => p == d) usersC6 "s" 0 "bob" "x" =
        loginToken (fun p d => p == d) usersC6 "s" 0 "alice" "wrong" ∧
      (loginToken (fun p d => p == d) usersC6 "s" 0 "bob" "x").jwtCookie = none ∧
      (loginToken (fun p d => p == d) usersC6 "s" 0 "alice" "wrong").jwtCookie = none) :=
  ⟨by decide,
    login_failures_indistinguishable (fun p d => p == d) usersC6 "s" 0 "bob" "x"
      "alice" "wrong" (by decide) ⟨⟨1, "alice", "H"⟩, by decide, by decide⟩⟩

/-- C7: a token signed at time T is accepted by the resolver 59 minutes later
with the decoded claims as the acting identity, rejected (redirect to /login)
61 minutes later, and in general accepted exactly while the clock is strictly
before the one-hour expiry T + 3600 seconds. -/
theorem token_expiry_boundary (secret : String) (uid : Nat) (uname : String) (T : Nat) :
    authenticateJWT secret (T + 59 * 60) (some (signJwt secret uid uname T)) =
      .proceed ⟨uid, uname, T, T + 3600⟩ ∧
    authenticateJWT secret (T + 61 * 60) (some (signJwt secret uid uname T)) =
      .redirectLogin ∧
    (∀ now : Nat,
      (∃ u, authenticateJWT secret now (some (signJwt secret uid uname T)) = .proceed u) ↔
        now < T + 3600) := by
  refine ⟨?_, ?_, ?_⟩
  · have h : T + 59 * 60 < T + 3600 := by omega
    simp [authenticateJWT, verifyJwt, signJwt, h]
  · have h : ¬ T + 61 * 60 < T + 3600 := by omega
    simp [authenticateJWT, verifyJwt, signJwt, h]
  · intro now
    by_cases h : now < T + 3600
    · simp [authenticateJWT, verifyJwt, signJwt, h]
    · simp [authenticateJWT, verifyJwt, signJwt, h]

/-! Logout error path of the session variant (claim C10). -/

/-- Identifiers visible inside the logout callback of app.js (lines 167-172):
the callback parameter err, the enclosing handler parameters req and res, and
the module-level bindings of app.js (the hoisted ensureAuthenticated function
declaration included). No binding is named next: the handler signature is
`(req, res)`, not `(req, res, next)`. -/
def logoutCallbackScope : List String :=
  ["err", "req", "res", "express", "session", "bodyParser", "Sequelize",
   "DataTypes", "passport", "LocalStrategy", "bcrypt", "app", "sequelize",
   "User", "Giveaway", "Referral", "ensureAuthenticated"]

/-- Evaluation result of the logout callback body
`err => { if (err) return next(err); res.redirect('/'); }`. -/
inductive LogoutOutcome
  | httpRedirect (target : String)
  | callFn (fn : String)
  | referenceError (name : String)
deriving Repr, DecidableEq

/-- Run the logout callback under a scope: the error branch evaluates the
identifier next before calling it, which raises ReferenceError when no
enclosing binding of that name exists; the non-error branch responds with the
redirect to the main page. -/
def logoutCallbackRun (scope : List String) (errOccurred : Bool) : LogoutOutcome :=
  if errOccurred then
    if scope.contains "next" then .callFn "next" else .referenceError "next"
  else .httpRedirect "/"

/-- C10: next is not bound in the scope of the logout callback of app.js, so
the execution in which req.logout reports an error raises a ReferenceError and
produces no HTTP response, while the error-free execution redirects normally. -/
theorem logout_error_path_unbound_next :
    logoutCallbackScope.contains "next" = false ∧
    logoutCallbackRun logoutCallbackScope true = .referenceError "next" ∧
    logoutCallbackRun logoutCallbackScope false = .httpRedirect "/" := by decide

end BlueSkytron
